import Mathlib

/-!
# Verification of the TCP→action mission bridge (`ros_bridge.py`)

A shallow embedding of the bridge in `SatelliteTest/ros_bridge.py` together
with the diagnostic echo server `SatelliteTest/test_mission_server.py`.

Modelling conventions:

* JSON values decoded by `json.loads` are modelled by `JValue`.  Python
  distinguishes `int` and `float`; so does the model (`JValue.int` /
  `JValue.float`, the latter over `Rat`, since every JSON literal and every
  default used by the bridge is an exact decimal).
* Python `dict` semantics: `json.loads` keeps the *last* binding of a
  repeated key, so objects are association lists looked up by `lookupLast`.
  Python truthiness (`if not waypoints`) is `JValue.isFalsy`; `len` and
  `for _ in _` are the fallible `pyLen` / `pyIter`; `d.get(k, default)` is
  the fallible `pyGet` (an `AttributeError` on every non-dict receiver).
* The byte stream of a connection is modelled as the list of results the
  successive `conn.recv(4096)` calls return: a data chunk (a list of byte
  values; an empty chunk is the peer's end-of-stream) or a raised socket
  error.  UTF-8 decoding plus `json.loads` is an opaque external library,
  so the model is parameterised by an arbitrary `jsonLoads` function from
  byte buffers to `Except PyError JValue`.
* The rclpy action client is external.  Per its contract (and §6 of the
  spec), `send_goal_async` returns a future that completes when the server
  answers the goal request, i.e. at goal *acceptance*, and the future's
  value is the `ClientGoalHandle`; the final mission result would only be
  obtained from a further `get_result_async` future.  An `ActionServer`
  record carries what the remote side would answer (`accepted`) and the
  final result payload it would eventually produce (`finalResult`), so that
  the two can be told apart in the trace.
* `ROSBridge.run` and the dispatch tail of `send_mission` are modelled as
  functions producing the ordered list of observable `Event`s (accept,
  recv, log, action-client calls, close), plus whether an uncaught
  exception escaped the loop.
-/

/-- A decoded JSON value, as produced by Python's `json.loads`. -/
inductive JValue where
  | null
  | bool (b : Bool)
  | int (n : Int)
  | float (q : Rat)
  | str (s : String)
  | arr (elems : List JValue)
  | obj (fields : List (String × JValue))

/-- The Python exceptions the bridge's per-connection handler can see. -/
inductive PyError where
  | attributeError
  | typeError
  | jsonDecodeError
  | unicodeDecodeError
deriving Repr, DecidableEq

/-- Lookup in a JSON object: `json.loads` keeps the last binding of a
repeated key, so the resulting `dict` maps a key to its last value. -/
def lookupLast (fields : List (String × JValue)) (k : String) : Option JValue :=
  (fields.filterMap (fun p => if p.1 = k then some p.2 else none)).getLast?

/-- Python truthiness: `not v` is true exactly on `None`, `False`, numeric
zero, and empty containers/strings. -/
def JValue.isFalsy : JValue → Bool
  | .null => true
  | .bool b => !b
  | .int n => n == 0
  | .float q => q == 0
  | .str s => s == ""
  | .arr elems => elems.isEmpty
  | .obj fields => fields.isEmpty

/-- Python `d.get(k, default)`: only `dict`s have a `.get` attribute, every
other receiver raises `AttributeError`. -/
def pyGet (v : JValue) (k : String) (default : JValue) : Except PyError JValue :=
  match v with
  | .obj fields =>
      match lookupLast fields k with
      | some w => .ok w
      | none => .ok default
  | _ => .error .attributeError

/-- The value `d.get(k, default)` returns on an actual `dict` `d`. -/
def pyGetD (fields : List (String × JValue)) (k : String) (default : JValue) : JValue :=
  match lookupLast fields k with
  | some w => w
  | none => default

/-- Python `len`: defined for sequences and mappings, a `TypeError`
otherwise.  A `dict`'s length counts its (distinct) keys. -/
def pyLen (v : JValue) : Except PyError Nat :=
  match v with
  | .str s => .ok s.length
  | .arr elems => .ok elems.length
  | .obj fields => .ok ((fields.map Prod.fst).eraseDups.length)
  | _ => .error .typeError

/-- Python `for x in v`: a list yields its elements, a string its
one-character substrings, a dict its keys (insertion order, first
occurrence); every other value raises `TypeError`. -/
def pyIter (v : JValue) : Except PyError (List JValue) :=
  match v with
  | .arr elems => .ok elems
  | .str s => .ok (s.toList.map (fun c => .str (String.mk [c])))
  | .obj fields => .ok (((fields.map Prod.fst).eraseDups).map JValue.str)
  | _ => .error .typeError

/-- One entry of `Mission.Goal().nav_waypoints`, as the Python code fills
it: the values assigned to `waypoint.latitude` / `waypoint.longitude`. -/
structure WaypointMsg where
  latitude : JValue
  longitude : JValue

/-- The `Mission.Goal` message as `send_mission` fills it. -/
structure GoalMsg where
  search_object : JValue
  search_pattern : JValue
  nav_waypoints : List WaypointMsg

/-- Whether a decoded value is a JSON object (a Python `dict`). -/
def JValue.isObj : JValue → Bool
  | .obj _ => true
  | _ => false

/-- Building one `Mission.Goal.NavWaypoints()` from one element of the
decoded `nav_waypoints` value: `wp.get('latitude', 0.0)` then
`wp.get('longitude', 0.0)`. -/
def buildWaypoint (wp : JValue) : Except PyError WaypointMsg :=
  match pyGet wp "latitude" (.float 0) with
  | .error e => .error e
  | .ok lat =>
      match pyGet wp "longitude" (.float 0) with
      | .error e => .error e
      | .ok lon => .ok ⟨lat, lon⟩

/-- The `for wp in waypoints:` loop of `send_mission`: builds one waypoint
message per element, in order, appending to `goal_msg.nav_waypoints`; the
first raised exception aborts the loop. -/
def buildWaypointList : List JValue → Except PyError (List WaypointMsg)
  | [] => .ok []
  | wp :: rest =>
      match buildWaypoint wp with
      | .error e => .error e
      | .ok w =>
          match buildWaypointList rest with
          | .error e => .error e
          | .ok ws => .ok (w :: ws)

/-- What the translation/validation part of `send_mission` decides. -/
inductive SendOutcome where
  | noWaypoints
  | dispatched (goal : GoalMsg)

/-- `ROSBridge.send_mission`, up to (and deciding) dispatch: reads
`nav_waypoints` (default `[]`), returns early with a warning when that
value is falsy or has length 0, otherwise builds the goal message field by
field and dispatches it.  A raised Python exception is the `.error` case
(caught by the caller's `except`). -/
def sendMission (mission : JValue) : Except PyError SendOutcome :=
  match pyGet mission "nav_waypoints" (.arr []) with
  | .error e => .error e
  | .ok waypoints =>
      if waypoints.isFalsy then .ok .noWaypoints
      else
        match pyLen waypoints with
        | .error e => .error e
        | .ok n =>
            if n == 0 then .ok .noWaypoints
            else
              match pyGet mission "search_object" (.int 0) with
              | .error e => .error e
              | .ok so =>
                  match pyGet mission "search_pattern" (.int 0) with
                  | .error e => .error e
                  | .ok sp =>
                      match pyIter waypoints with
                      | .error e => .error e
                      | .ok elems =>
                          match buildWaypointList elems with
                          | .error e => .error e
                          | .ok wps => .ok (.dispatched ⟨so, sp, wps⟩)

/-- What one `conn.recv(4096)` call delivers: a chunk of bytes (the empty
chunk is the peer's end-of-stream) or a raised socket error such as
`ConnectionResetError`. -/
inductive RecvResult where
  | chunk (c : List Nat)
  | err
deriving Repr, DecidableEq

/-- A socket error raised by `recv` (the accumulation loop of
`ROSBridge.run` performs no `try` around it). -/
inductive ReadError where
  | readError
deriving Repr, DecidableEq

/-- The remote action server, as the bridge's opaque dependency: whether it
accepts the goal when the `send_goal_async` future completes, and the final
result payload a `get_result` request would eventually yield. -/
structure ActionServer where
  accepted : Bool
  finalResult : Int

/-- A value the bridge can log as the outcome of a dispatch:
`goalHandle` is the `ClientGoalHandle` that the `send_goal_async` future
resolves to at goal acceptance; `finalResultPayload` is the mission's final
result, obtainable only through a further `get_result` request. -/
inductive LoggedValue where
  | goalHandle (accepted : Bool)
  | finalResultPayload (r : Int)
deriving Repr, DecidableEq

/-- The observable events of the worker loop, tagged with the index of the
connection they belong to. -/
inductive Event where
  | accept (i : Nat)
  | recvChunk (i : Nat) (c : List Nat)
  | recvEof (i : Nat)
  | recvErr (i : Nat)
  | logReceivedMission (i : Nat)
  | logParseError (i : Nat)
  | warnNoWaypoints (i : Nat)
  | logSendingGoal (i : Nat)
  | waitForServer (i : Nat)
  | sendGoalAsync (i : Nat) (goal : GoalMsg)
  | spinUntilSendGoalFutureComplete (i : Nat)
  | logResult (i : Nat) (v : LoggedValue)
  | close (i : Nat)

/-- The connection a given event belongs to. -/
def Event.conn : Event → Nat
  | .accept i => i
  | .recvChunk i _ => i
  | .recvEof i => i
  | .recvErr i => i
  | .logReceivedMission i => i
  | .logParseError i => i
  | .warnNoWaypoints i => i
  | .logSendingGoal i => i
  | .waitForServer i => i
  | .sendGoalAsync i _ => i
  | .spinUntilSendGoalFutureComplete i => i
  | .logResult i _ => i
  | .close i => i

/-- Whether an event is the bridge reading bytes from its connection. -/
def Event.isRead : Event → Bool
  | .recvChunk _ _ => true
  | .recvEof _ => true
  | .recvErr _ => true
  | _ => false

/-- Whether an event is a goal submission (`send_goal_async`). -/
def Event.isDispatch : Event → Bool
  | .sendGoalAsync _ _ => true
  | _ => false

/-- The byte-accumulation loop of `ROSBridge.run` (`data = b''; while True:
chunk = conn.recv(4096); if not chunk: break; data += chunk`) on connection
`i`: the recv events it produces, and either the accumulated buffer or the
socket error `recv` raised (which nothing in `run` catches).  An exhausted
event list stands for the peer closing the stream. -/
def recvLoop (i : Nat) : List RecvResult → List Nat → List Event × Except ReadError (List Nat)
  | [], acc => ([], .ok acc)
  | .chunk c :: rest, acc =>
      if c.isEmpty then ([.recvEof i], .ok acc)
      else (.recvChunk i c :: (recvLoop i rest (acc ++ c)).1, (recvLoop i rest (acc ++ c)).2)
  | .err :: _, _ => ([.recvErr i], .error .readError)

/-- The events of the dispatch tail of `send_mission` (from the
`"Sending mission goal to rover..."` log on): `wait_for_server()`, then
`send_goal_async(goal_msg)`, then `spin_until_future_complete` on the
returned future — which completes when the server answers the goal request,
i.e. at acceptance — and finally the log of `future.result()`, the
`ClientGoalHandle`. -/
def dispatchEvents (i : Nat) (server : ActionServer) (goal : GoalMsg) : List Event :=
  [.logSendingGoal i, .waitForServer i, .sendGoalAsync i goal,
   .spinUntilSendGoalFutureComplete i, .logResult i (.goalHandle server.accepted)]

/-- The events of the `try` body of `ROSBridge.run` for connection `i`,
after the buffer `data` has been accumulated: decode, log the mission,
run `send_mission`; any exception from decoding or from `send_mission` is
caught and logged by the `except` clause. -/
def tryBodyEvents (jsonLoads : List Nat → Except PyError JValue)
    (server : ActionServer) (i : Nat) (data : List Nat) : List Event :=
  match jsonLoads data with
  | .error _ => [.logParseError i]
  | .ok mission =>
      .logReceivedMission i ::
        match sendMission mission with
        | .error _ => [.logParseError i]
        | .ok .noWaypoints => [.warnNoWaypoints i]
        | .ok (.dispatched goal) => dispatchEvents i server goal

/-- Handling of one accepted connection by `ROSBridge.run`: accept,
accumulate bytes, then the guarded decode-and-send body.  The `with conn:`
block closes the socket in every case; a socket error raised by `recv` is
outside the `try`, so after the close it escapes `run` (the `Bool` is true
exactly when an uncaught exception is propagating). -/
def handleConn (jsonLoads : List Nat → Except PyError JValue)
    (server : ActionServer) (i : Nat) (conn : List RecvResult) : List Event × Bool :=
  match (recvLoop i conn []).2 with
  | .error _ => (.accept i :: (recvLoop i conn []).1 ++ [.close i], true)
  | .ok data =>
      (.accept i :: (recvLoop i conn []).1 ++ tryBodyEvents jsonLoads server i data ++ [.close i],
       false)

/-- The worker loop of `ROSBridge.run`: connections are accepted and
handled strictly one after the other; an uncaught exception ends the loop
(and the process) at once, leaving later connections untouched. -/
def runLoop (jsonLoads : List Nat → Except PyError JValue)
    (server : ActionServer) : Nat → List (List RecvResult) → List Event × Bool
  | _, [] => ([], false)
  | i, conn :: rest =>
      if (handleConn jsonLoads server i conn).2 then ((handleConn jsonLoads server i conn).1, true)
      else
        ((handleConn jsonLoads server i conn).1 ++ (runLoop jsonLoads server (i + 1) rest).1,
         (runLoop jsonLoads server (i + 1) rest).2)

/-- Whether a byte (codepoint of the decoded text; the chunks the servers
compare are valid UTF-8) is whitespace for Python's `str.strip()` /
`str.isspace()`. -/
def pyIsSpace (b : Nat) : Bool :=
  b == 32 || b == 9 || b == 10 || b == 11 || b == 12 || b == 13 ||
    b == 28 || b == 29 || b == 30 || b == 31 || b == 133 || b == 160

/-- Python `s.strip()`: whitespace removed from both ends. -/
def pyStrip (s : List Nat) : List Nat :=
  ((s.dropWhile pyIsSpace).reverse.dropWhile pyIsSpace).reverse

/-- The accumulation loop of the diagnostic server `test_mission_server.py`
(`start_server`): like the bridge it stops at an empty chunk, but it
additionally breaks as soon as the data accumulated so far contains a
newline (`if "\n" in data_str: break`), keeping the whole last chunk. -/
def diagRecvLoop : List (List Nat) → List Nat → List Nat
  | [], acc => acc
  | c :: rest, acc =>
      if c.isEmpty then acc
      else
        let acc2 := acc ++ c
        if acc2.contains 10 then acc2 else diagRecvLoop rest acc2

/-- The text the diagnostic server hands to `json.loads`: the accumulated
data, stripped (`json.loads(data_str.strip())`). -/
def diagPayload (chunks : List (List Nat)) : List Nat :=
  pyStrip (diagRecvLoop chunks [])

/-- A concrete one-waypoint mission payload
(`{"nav_waypoints": [{"latitude": 1.0, "longitude": 2.0}]}`). -/
def missionWire : JValue :=
  .obj [("nav_waypoints", .arr [.obj [("latitude", .float 1), ("longitude", .float 2)]])]

/-- The goal message `send_mission` builds from `missionWire`. -/
def goalWire : GoalMsg := ⟨.int 0, .int 0, [⟨.float 1, .float 2⟩]⟩

/-- A decoding stub: every buffer decodes to `missionWire`. -/
def decodeToMission : List Nat → Except PyError JValue := fun _ => .ok missionWire

/-- A decoding stub: every buffer decodes to the empty JSON object. -/
def decodeToEmptyObj : List Nat → Except PyError JValue := fun _ => .ok (.obj [])

/-- A decoding stub: every buffer decodes to the empty JSON array. -/
def decodeToArr : List Nat → Except PyError JValue := fun _ => .ok (.arr [])

/-- A decoding stub: every buffer fails to decode. -/
def decodeFails : List Nat → Except PyError JValue := fun _ => .error .jsonDecodeError

/-- An action server that accepts the goal; its eventual mission result
payload is `7`. -/
def acceptingServer : ActionServer := ⟨true, 7⟩

/-- A well-behaved connection: one data chunk, then end-of-stream. -/
def simpleConn : List RecvResult := [.chunk [1], .chunk []]

/-- A connection that delivers one chunk and then aborts: the next `recv`
raises (e.g. `ConnectionResetError`). -/
def resetConn : List RecvResult := [.chunk [123], .err]

/-! ## Sanity checks -/

example :
    sendMission (.obj [("nav_waypoints", .arr [.obj [("latitude", .float 1), ("longitude", .float 2)]])])
      = .ok (.dispatched ⟨.int 0, .int 0, [⟨.float 1, .float 2⟩]⟩) := rfl

example : sendMission (.obj [("nav_waypoints", .arr [])]) = .ok .noWaypoints := rfl

example : sendMission (.obj []) = .ok .noWaypoints := rfl

example : sendMission (.arr []) = .error .attributeError := rfl

example : sendMission (.obj [("nav_waypoints", .null)]) = .ok .noWaypoints := rfl

example : sendMission (.obj [("nav_waypoints", .arr [.int 1])]) = .error .attributeError := rfl

example :
    recvLoop 0 [.chunk [123], .chunk [125], .chunk []] []
      = ([.recvChunk 0 [123], .recvChunk 0 [125], .recvEof 0], .ok [123, 125]) := rfl

example :
    recvLoop 0 [.chunk [123], .err] [] = ([.recvChunk 0 [123], .recvErr 0], .error .readError) := rfl

example :
    handleConn (fun _ => .error .jsonDecodeError) ⟨true, 0⟩ 0 [.chunk [1], .chunk []]
      = ([.accept 0, .recvChunk 0 [1], .recvEof 0, .logParseError 0, .close 0], false) := rfl

example :
    runLoop (fun _ => .error .jsonDecodeError) ⟨true, 0⟩ 0 [[.err], [.chunk []]]
      = ([.accept 0, .recvErr 0, .close 0], true) := rfl

example : diagRecvLoop [[123, 10], [50]] [] = [123, 10] := rfl

example : diagPayload [[123, 125, 10], [50]] = [123, 125] := rfl

example : (recvLoop 0 [.chunk [123, 125, 10], .chunk [50]] []).2 = .ok [123, 125, 10, 50] := rfl

/-! ## Structural lemmas about `send_mission` -/

theorem pyGet_obj (fields : List (String × JValue)) (k : String) (d : JValue) :
    pyGet (.obj fields) k d = .ok (pyGetD fields k d) := by
  cases h : lookupLast fields k <;> simp [pyGet, pyGetD, h]

theorem buildWaypoint_obj (wfs : List (String × JValue)) :
    buildWaypoint (.obj wfs)
      = .ok ⟨pyGetD wfs "latitude" (.float 0), pyGetD wfs "longitude" (.float 0)⟩ := by
  simp [buildWaypoint, pyGet_obj]

theorem buildWaypoint_not_obj (wp : JValue) (h : wp.isObj = false) :
    buildWaypoint wp = .error .attributeError := by
  cases wp <;> simp_all [buildWaypoint, pyGet, JValue.isObj]

theorem buildWaypointList_length (l : List JValue) (ws : List WaypointMsg)
    (h : buildWaypointList l = .ok ws) : ws.length = l.length := by
  induction l generalizing ws with
  | nil => simp [buildWaypointList] at h; simp [← h]
  | cons wp rest ih =>
      unfold buildWaypointList at h
      cases hwp : buildWaypoint wp with
      | error e => simp [hwp] at h
      | ok w =>
          cases hrest : buildWaypointList rest with
          | error e => simp [hwp, hrest] at h
          | ok tl => simp [hwp, hrest] at h; simp [← h, ih tl hrest]

theorem buildWaypointList_get (l : List JValue) (ws : List WaypointMsg)
    (h : buildWaypointList l = .ok ws) :
    ∀ k (hk : k < l.length) (hk2 : k < ws.length),
      buildWaypoint (l.get ⟨k, hk⟩) = .ok (ws.get ⟨k, hk2⟩) := by
  induction l generalizing ws with
  | nil => intro k hk; exact absurd hk (by simp)
  | cons wp rest ih =>
      unfold buildWaypointList at h
      cases hwp : buildWaypoint wp with
      | error e => simp [hwp] at h
      | ok w =>
          cases hrest : buildWaypointList rest with
          | error e => simp [hwp, hrest] at h
          | ok tl =>
              simp [hwp, hrest] at h
              intro k hk hk2
              cases k with
              | zero => simp [← h, hwp]
              | succ k' =>
                  have hk' : k' < rest.length := by simpa using hk
                  have hk2' : k' < tl.length := by
                    have := buildWaypointList_length rest tl hrest
                    omega
                  simpa [← h] using ih tl hrest k' hk' hk2'

theorem buildWaypointList_error (l : List JValue)
    (h : ∃ wp ∈ l, wp.isObj = false) : ∃ e, buildWaypointList l = .error e := by
  induction l with
  | nil => simp at h
  | cons wp rest ih =>
      rcases h with ⟨w, hw, hobj⟩
      rcases List.mem_cons.mp hw with rfl | hmem
      · exact ⟨.attributeError, by simp [buildWaypointList, buildWaypoint_not_obj w hobj]⟩
      · cases hwp : buildWaypoint wp with
        | error e => exact ⟨e, by simp [buildWaypointList, hwp]⟩
        | ok v =>
            rcases ih ⟨w, hmem, hobj⟩ with ⟨e, he⟩
            exact ⟨e, by simp [buildWaypointList, hwp, he]⟩

theorem sendMission_obj_arr (fields : List (String × JValue)) (ws : List JValue)
    (hws : lookupLast fields "nav_waypoints" = some (.arr ws)) :
    sendMission (.obj fields)
      = if ws.isEmpty then .ok .noWaypoints
        else
          match buildWaypointList ws with
          | .error e => .error e
          | .ok wps =>
              .ok (.dispatched ⟨pyGetD fields "search_object" (.int 0),
                pyGetD fields "search_pattern" (.int 0), wps⟩) := by
  cases ws with
  | nil => simp [sendMission, pyGet_obj, pyGetD, hws, JValue.isFalsy]
  | cons w t =>
      simp [sendMission, pyGet_obj, pyGetD, hws, JValue.isFalsy, pyLen, pyIter]

theorem sendMission_dispatched_inv (fields : List (String × JValue)) (ws : List JValue)
    (g : GoalMsg) (hws : lookupLast fields "nav_waypoints" = some (.arr ws))
    (hok : sendMission (.obj fields) = .ok (.dispatched g)) :
    buildWaypointList ws = .ok g.nav_waypoints ∧
      g.search_object = pyGetD fields "search_object" (.int 0) ∧
      g.search_pattern = pyGetD fields "search_pattern" (.int 0) := by
  rw [sendMission_obj_arr fields ws hws] at hok
  by_cases hemp : ws.isEmpty
  · simp [hemp] at hok
  · simp [hemp] at hok
    cases hbl : buildWaypointList ws with
    | error e => simp [hbl] at hok
    | ok wps =>
        simp [hbl] at hok
        simp [← hok, hbl]

/-! ## Structural lemmas about the worker loop's trace -/

theorem recvLoop_events (i : Nat) (s : List RecvResult) (acc : List Nat) :
    ∀ e ∈ (recvLoop i s acc).1, e.conn = i ∧ e.isRead = true := by
  induction s generalizing acc with
  | nil => simp [recvLoop]
  | cons r rest ih =>
      cases r with
      | chunk c =>
          cases hc : c.isEmpty with
          | true => simp [recvLoop, hc, Event.conn, Event.isRead]
          | false =>
              intro e he
              simp [recvLoop, hc] at he
              rcases he with rfl | he
              · exact ⟨rfl, rfl⟩
              · exact ih (acc ++ c) e he
      | err => simp [recvLoop, Event.conn, Event.isRead]

theorem recvLoop_no_err (i : Nat) (s : List RecvResult) (acc : List Nat)
    (h : RecvResult.err ∉ s) :
    ∃ data, (recvLoop i s acc).2 = .ok data ∧ acc.length ≤ data.length := by
  induction s generalizing acc with
  | nil => exact ⟨acc, rfl, le_refl _⟩
  | cons r rest ih =>
      cases r with
      | chunk c =>
          cases hc : c.isEmpty with
          | true => exact ⟨acc, by simp [recvLoop, hc], le_refl _⟩
          | false =>
              rcases ih (acc ++ c) (fun hm => h (List.mem_cons_of_mem _ hm)) with ⟨d, hd, hl⟩
              refine ⟨d, by simp [recvLoop, hc, hd], ?_⟩
              calc acc.length ≤ (acc ++ c).length := by simp
                _ ≤ d.length := hl
      | err => exact absurd (List.mem_cons_self _ _) h

theorem Event.isRead_not_dispatch (e : Event) (h : e.isRead = true) : e.isDispatch = false := by
  cases e <;> simp_all [Event.isRead, Event.isDispatch]

theorem tryBodyEvents_conn (jl : List Nat → Except PyError JValue) (srv : ActionServer)
    (i : Nat) (data : List Nat) : ∀ e ∈ tryBodyEvents jl srv i data, e.conn = i := by
  intro e he
  unfold tryBodyEvents at he
  cases hd : jl data with
  | error e2 => rw [hd] at he; simp at he; simp [he, Event.conn]
  | ok m =>
      cases hs : sendMission m with
      | error e2 => simp [hd, hs] at he; rcases he with rfl | rfl <;> rfl
      | ok o =>
          cases o with
          | noWaypoints => simp [hd, hs] at he; rcases he with rfl | rfl <;> rfl
          | dispatched g =>
              simp [hd, hs, dispatchEvents] at he
              rcases he with rfl | rfl | rfl | rfl | rfl | rfl <;> rfl

theorem handleConn_trace_ok (jl : List Nat → Except PyError JValue) (srv : ActionServer)
    (i : Nat) (conn : List RecvResult) (data : List Nat)
    (h : (recvLoop i conn []).2 = .ok data) :
    handleConn jl srv i conn
      = (.accept i :: (recvLoop i conn []).1 ++ tryBodyEvents jl srv i data ++ [.close i],
         false) := by
  simp [handleConn, h]

theorem handleConn_trace_err (jl : List Nat → Except PyError JValue) (srv : ActionServer)
    (i : Nat) (conn : List RecvResult) (e : ReadError)
    (h : (recvLoop i conn []).2 = .error e) :
    handleConn jl srv i conn = (.accept i :: (recvLoop i conn []).1 ++ [.close i], true) := by
  simp [handleConn, h]

theorem handleConn_conn (jl : List Nat → Except PyError JValue) (srv : ActionServer)
    (i : Nat) (conn : List RecvResult) :
    ∀ e ∈ (handleConn jl srv i conn).1, e.conn = i := by
  intro e he
  cases hr : (recvLoop i conn []).2 with
  | error err =>
      rw [handleConn_trace_err jl srv i conn err hr] at he
      simp at he
      rcases he with rfl | he | rfl
      · rfl
      · exact (recvLoop_events i conn [] e he).1
      · rfl
  | ok data =>
      rw [handleConn_trace_ok jl srv i conn data hr] at he
      simp at he
      rcases he with rfl | he | he | rfl
      · rfl
      · exact (recvLoop_events i conn [] e he).1
      · exact tryBodyEvents_conn jl srv i data e he
      · rfl

theorem handleConn_last (jl : List Nat → Except PyError JValue) (srv : ActionServer)
    (i : Nat) (conn : List RecvResult) :
    ((handleConn jl srv i conn).1).getLast? = some (.close i) := by
  cases hr : (recvLoop i conn []).2 with
  | error err =>
      rw [handleConn_trace_err jl srv i conn err hr]
      rw [show Event.accept i :: (recvLoop i conn []).1 ++ [Event.close i]
            = (Event.accept i :: (recvLoop i conn []).1) ++ [Event.close i] by simp]
      exact List.getLast?_concat _
  | ok data =>
      rw [handleConn_trace_ok jl srv i conn data hr]
      rw [show Event.accept i :: (recvLoop i conn []).1 ++ tryBodyEvents jl srv i data
              ++ [Event.close i]
            = (Event.accept i :: (recvLoop i conn []).1 ++ tryBodyEvents jl srv i data)
              ++ [Event.close i] by simp]
      exact List.getLast?_concat _

theorem runLoop_cons_ok (jl : List Nat → Except PyError JValue) (srv : ActionServer)
    (i : Nat) (conn : List RecvResult) (rest : List (List RecvResult))
    (h : (handleConn jl srv i conn).2 = false) :
    runLoop jl srv i (conn :: rest)
      = ((handleConn jl srv i conn).1 ++ (runLoop jl srv (i + 1) rest).1,
         (runLoop jl srv (i + 1) rest).2) := by
  simp [runLoop, h]

theorem runLoop_cons_crash (jl : List Nat → Except PyError JValue) (srv : ActionServer)
    (i : Nat) (conn : List RecvResult) (rest : List (List RecvResult))
    (h : (handleConn jl srv i conn).2 = true) :
    runLoop jl srv i (conn :: rest) = ((handleConn jl srv i conn).1, true) := by
  simp [runLoop, h]

/-! ## Framing lemmas (primary bridge vs diagnostic server) -/

theorem pyStrip_length_le (s : List Nat) : (pyStrip s).length ≤ s.length := by
  unfold pyStrip
  calc ((s.dropWhile pyIsSpace).reverse.dropWhile pyIsSpace).reverse.length
      = ((s.dropWhile pyIsSpace).reverse.dropWhile pyIsSpace).length := by simp
    _ ≤ (s.dropWhile pyIsSpace).reverse.length := (List.dropWhile_sublist _).length_le
    _ = (s.dropWhile pyIsSpace).length := by simp
    _ ≤ s.length := (List.dropWhile_sublist _).length_le

theorem recvLoop_all_chunks (i : Nat) (cs : List (List Nat)) (acc : List Nat)
    (h : ∀ c ∈ cs, c ≠ []) :
    (recvLoop i (cs.map RecvResult.chunk) acc).2 = .ok (acc ++ cs.flatten) := by
  induction cs generalizing acc with
  | nil => simp [recvLoop]
  | cons c rest ih =>
      have hc : c.isEmpty = false := by
        cases c with
        | nil => exact absurd rfl (h [] (List.mem_cons_self _ rest))
        | cons a t => rfl
      have := ih (acc ++ c) (fun x hx => h x (List.mem_cons_of_mem _ hx))
      simp [recvLoop, hc, this]

theorem diagRecvLoop_first_newline (c : List Nat) (rest : List (List Nat))
    (hne : c ≠ []) (hnl : c.contains 10 = true) : diagRecvLoop (c :: rest) [] = c := by
  have hc : c.isEmpty = false := by
    cases c with
    | nil => exact absurd rfl hne
    | cons a t => rfl
  have hnl2 : 10 ∈ c := by simpa using hnl
  simp [diagRecvLoop, hc, hnl2]

/-! ## The claims -/

/-- C1: for every decoded mission payload whose `nav_waypoints` list is
non-empty, the goal request built by `send_mission` contains exactly one
waypoint entry per input waypoint object, in exactly the input order: the
goal's waypoint list has the input list's length, and its `k`-th entry is
the one built from the `k`-th input element. -/
theorem C1_waypoint_order_count (fields : List (String × JValue)) (ws : List JValue)
    (g : GoalMsg) (_hne : ws ≠ [])
    (hws : lookupLast fields "nav_waypoints" = some (.arr ws))
    (hok : sendMission (.obj fields) = .ok (.dispatched g)) :
    g.nav_waypoints.length = ws.length ∧
      ∀ k (hk : k < ws.length) (hk2 : k < g.nav_waypoints.length),
        buildWaypoint (ws.get ⟨k, hk⟩) = .ok (g.nav_waypoints.get ⟨k, hk2⟩) := by
  obtain ⟨hbl, -, -⟩ := sendMission_dispatched_inv fields ws g hws hok
  exact ⟨buildWaypointList_length ws g.nav_waypoints hbl,
    fun k hk hk2 => buildWaypointList_get ws g.nav_waypoints hbl k hk hk2⟩

theorem C1_waypoint_order_count_witness :
    goalWire.nav_waypoints.length
        = [JValue.obj [("latitude", .float 1), ("longitude", .float 2)]].length ∧
      ∀ k (hk : k < [JValue.obj [("latitude", .float 1), ("longitude", .float 2)]].length)
        (hk2 : k < goalWire.nav_waypoints.length),
        buildWaypoint ([JValue.obj [("latitude", .float 1), ("longitude", .float 2)]].get ⟨k, hk⟩)
          = .ok (goalWire.nav_waypoints.get ⟨k, hk2⟩) :=
  C1_waypoint_order_count
    [("nav_waypoints", .arr [.obj [("latitude", .float 1), ("longitude", .float 2)]])]
    [.obj [("latitude", .float 1), ("longitude", .float 2)]] goalWire
    (List.cons_ne_nil _ _) rfl rfl

/-- C5: for every dispatched payload, a missing `search_object` key yields
`0` (a Python `int`) in the goal request, a missing `search_pattern` key
yields `0`, and for each waypoint object a missing `latitude` or
`longitude` key yields `0.0` (a Python `float`) for that field of the
built waypoint. -/
theorem C5_missing_keys_default (fields : List (String × JValue)) (ws : List JValue)
    (g : GoalMsg) (hws : lookupLast fields "nav_waypoints" = some (.arr ws))
    (hok : sendMission (.obj fields) = .ok (.dispatched g)) :
    (lookupLast fields "search_object" = none → g.search_object = .int 0) ∧
      (lookupLast fields "search_pattern" = none → g.search_pattern = .int 0) ∧
      ∀ k (hk : k < ws.length) (hk2 : k < g.nav_waypoints.length)
        (wfs : List (String × JValue)), ws.get ⟨k, hk⟩ = .obj wfs →
        ((lookupLast wfs "latitude" = none
            → (g.nav_waypoints.get ⟨k, hk2⟩).latitude = .float 0) ∧
         (lookupLast wfs "longitude" = none
            → (g.nav_waypoints.get ⟨k, hk2⟩).longitude = .float 0)) := by
  obtain ⟨hbl, hso, hsp⟩ := sendMission_dispatched_inv fields ws g hws hok
  refine ⟨?_, ?_, ?_⟩
  · intro h; rw [hso]; simp [pyGetD, h]
  · intro h; rw [hsp]; simp [pyGetD, h]
  · intro k hk hk2 wfs hwp
    have hb := buildWaypointList_get ws g.nav_waypoints hbl k hk hk2
    rw [hwp, buildWaypoint_obj] at hb
    have hb' : (⟨pyGetD wfs "latitude" (.float 0), pyGetD wfs "longitude" (.float 0)⟩
        : WaypointMsg) = g.nav_waypoints.get ⟨k, hk2⟩ := by
      simpa using hb
    constructor
    · intro h; rw [← hb']; simp [pyGetD, h]
    · intro h; rw [← hb']; simp [pyGetD, h]

theorem C5_missing_keys_default_witness :
    (lookupLast [("nav_waypoints", JValue.arr [.obj []])] "search_object" = none
        → (GoalMsg.mk (.int 0) (.int 0) [⟨.float 0, .float 0⟩]).search_object = .int 0) ∧
      (lookupLast [("nav_waypoints", JValue.arr [.obj []])] "search_pattern" = none
        → (GoalMsg.mk (.int 0) (.int 0) [⟨.float 0, .float 0⟩]).search_pattern = .int 0) ∧
      ∀ k (hk : k < [JValue.obj []].length)
        (hk2 : k < (GoalMsg.mk (.int 0) (.int 0) [⟨.float 0, .float 0⟩]).nav_waypoints.length)
        (wfs : List (String × JValue)), [JValue.obj []].get ⟨k, hk⟩ = .obj wfs →
        ((lookupLast wfs "latitude" = none
            → ((GoalMsg.mk (.int 0) (.int 0)
                [⟨.float 0, .float 0⟩]).nav_waypoints.get ⟨k, hk2⟩).latitude = .float 0) ∧
         (lookupLast wfs "longitude" = none
            → ((GoalMsg.mk (.int 0) (.int 0)
                [⟨.float 0, .float 0⟩]).nav_waypoints.get ⟨k, hk2⟩).longitude = .float 0)) :=
  C5_missing_keys_default [("nav_waypoints", .arr [.obj []])] [.obj []]
    (GoalMsg.mk (.int 0) (.int 0) [⟨.float 0, .float 0⟩]) rfl rfl

/-- C10: a `nav_waypoints` key bound to JSON `null` (or any other falsy
value) is treated by `send_mission` exactly like an empty waypoint list:
the no-waypoints outcome (warning, no goal submitted, no exception),
identical to the behavior on `{"nav_waypoints": []}`. -/
theorem C10_falsy_waypoints_like_empty (fields : List (String × JValue)) (v : JValue)
    (hv : lookupLast fields "nav_waypoints" = some v) (hf : v.isFalsy = true) :
    sendMission (.obj fields) = .ok .noWaypoints ∧
      sendMission (.obj fields) = sendMission (.obj [("nav_waypoints", .arr [])]) := by
  have h1 : sendMission (.obj fields) = .ok .noWaypoints := by
    simp [sendMission, pyGet_obj, pyGetD, hv, hf]
  exact ⟨h1, h1.trans rfl⟩

theorem C10_falsy_waypoints_like_empty_witness :
    sendMission (.obj [("nav_waypoints", .null)]) = .ok .noWaypoints ∧
      sendMission (.obj [("nav_waypoints", .null)])
        = sendMission (.obj [("nav_waypoints", .arr [])]) :=
  C10_falsy_waypoints_like_empty [("nav_waypoints", .null)] .null rfl rfl

theorem recvLoop_filter_dispatch (i : Nat) (s : List RecvResult) (acc : List Nat) :
    ((recvLoop i s acc).1.filter Event.isDispatch) = [] :=
  List.filter_eq_nil_iff.mpr fun e he => by
    have hr := (recvLoop_events i s acc e he).2
    simp [Event.isRead_not_dispatch e hr]

/-- C3: for every successfully decoded payload whose `nav_waypoints` field
is empty or absent, `send_mission` submits no goal (the connection's trace
holds zero dispatch events), logs the no-waypoints warning, and returns
without raising (the worker does not crash). -/
theorem C3_empty_or_absent_waypoints (jl : List Nat → Except PyError JValue)
    (srv : ActionServer) (i : Nat) (conn : List RecvResult) (data : List Nat)
    (fields : List (String × JValue))
    (hrecv : (recvLoop i conn []).2 = .ok data)
    (hdec : jl data = .ok (.obj fields))
    (hempty : lookupLast fields "nav_waypoints" = none ∨
      lookupLast fields "nav_waypoints" = some (.arr [])) :
    sendMission (.obj fields) = .ok .noWaypoints ∧
      (handleConn jl srv i conn).2 = false ∧
      ((handleConn jl srv i conn).1.filter Event.isDispatch) = [] ∧
      Event.warnNoWaypoints i ∈ (handleConn jl srv i conn).1 := by
  have hsm : sendMission (.obj fields) = .ok .noWaypoints := by
    rcases hempty with h | h
    · simp [sendMission, pyGet_obj, pyGetD, h, JValue.isFalsy]
    · simp [sendMission, pyGet_obj, pyGetD, h, JValue.isFalsy]
  have htb : tryBodyEvents jl srv i data = [.logReceivedMission i, .warnNoWaypoints i] := by
    simp [tryBodyEvents, hdec, hsm]
  have htr := handleConn_trace_ok jl srv i conn data hrecv
  refine ⟨hsm, by rw [htr], ?_, ?_⟩
  · rw [htr]
    simp [List.filter_append, htb, Event.isDispatch, recvLoop_filter_dispatch]
  · rw [htr]; simp [htb]

theorem C3_empty_or_absent_waypoints_witness :
    sendMission (.obj []) = .ok .noWaypoints ∧
      (handleConn decodeToEmptyObj acceptingServer 0 simpleConn).2 = false ∧
      ((handleConn decodeToEmptyObj acceptingServer 0 simpleConn).1.filter Event.isDispatch)
        = [] ∧
      Event.warnNoWaypoints 0 ∈ (handleConn decodeToEmptyObj acceptingServer 0 simpleConn).1 :=
  C3_empty_or_absent_waypoints decodeToEmptyObj acceptingServer 0 simpleConn [1] []
    rfl rfl (Or.inl rfl)

/-- C4: for every accumulated byte buffer that fails decoding (invalid
UTF-8 or invalid JSON, i.e. the decoder returns an error), no goal is
submitted for that connection, the error is logged, the worker does not
crash, and the loop goes on to handle the remaining connections. -/
theorem C4_decode_failure_recovers (jl : List Nat → Except PyError JValue)
    (srv : ActionServer) (i : Nat) (conn : List RecvResult) (data : List Nat)
    (e : PyError) (rest : List (List RecvResult))
    (hrecv : (recvLoop i conn []).2 = .ok data)
    (hdec : jl data = .error e) :
    ((handleConn jl srv i conn).1.filter Event.isDispatch) = [] ∧
      Event.logParseError i ∈ (handleConn jl srv i conn).1 ∧
      (handleConn jl srv i conn).2 = false ∧
      runLoop jl srv i (conn :: rest)
        = ((handleConn jl srv i conn).1 ++ (runLoop jl srv (i + 1) rest).1,
           (runLoop jl srv (i + 1) rest).2) := by
  have htb : tryBodyEvents jl srv i data = [.logParseError i] := by
    simp [tryBodyEvents, hdec]
  have htr := handleConn_trace_ok jl srv i conn data hrecv
  have hcr : (handleConn jl srv i conn).2 = false := by rw [htr]
  refine ⟨?_, ?_, hcr, runLoop_cons_ok jl srv i conn rest hcr⟩
  · rw [htr]
    simp [List.filter_append, htb, Event.isDispatch, recvLoop_filter_dispatch]
  · rw [htr]; simp [htb]

theorem C4_decode_failure_recovers_witness :
    ((handleConn decodeFails acceptingServer 0 simpleConn).1.filter Event.isDispatch) = [] ∧
      Event.logParseError 0 ∈ (handleConn decodeFails acceptingServer 0 simpleConn).1 ∧
      (handleConn decodeFails acceptingServer 0 simpleConn).2 = false ∧
      runLoop decodeFails acceptingServer 0 (simpleConn :: [[.chunk []]])
        = ((handleConn decodeFails acceptingServer 0 simpleConn).1
            ++ (runLoop decodeFails acceptingServer 1 [[.chunk []]]).1,
           (runLoop decodeFails acceptingServer 1 [[.chunk []]]).2) :=
  C4_decode_failure_recovers decodeFails acceptingServer 0 simpleConn [1] .jsonDecodeError
    [[.chunk []]] rfl rfl

/-- C9: a buffer that decodes to valid JSON that is not an object, or to an
object whose non-empty `nav_waypoints` list holds a non-object element,
makes field extraction raise; the exception is caught by the same
per-connection handler as decode errors (logged at error level), no goal is
submitted, and the loop goes on to the next connection. -/
theorem C9_extraction_error_caught (jl : List Nat → Except PyError JValue)
    (srv : ActionServer) (i : Nat) (conn : List RecvResult) (data : List Nat)
    (v : JValue) (rest : List (List RecvResult))
    (hrecv : (recvLoop i conn []).2 = .ok data)
    (hdec : jl data = .ok v)
    (hbad : v.isObj = false ∨
      ∃ fields ws, v = .obj fields ∧ lookupLast fields "nav_waypoints" = some (.arr ws) ∧
        ∃ wp ∈ ws, wp.isObj = false) :
    (∃ e, sendMission v = .error e) ∧
      Event.logParseError i ∈ (handleConn jl srv i conn).1 ∧
      ((handleConn jl srv i conn).1.filter Event.isDispatch) = [] ∧
      (handleConn jl srv i conn).2 = false ∧
      runLoop jl srv i (conn :: rest)
        = ((handleConn jl srv i conn).1 ++ (runLoop jl srv (i + 1) rest).1,
           (runLoop jl srv (i + 1) rest).2) := by
  have hsm : ∃ e, sendMission v = .error e := by
    rcases hbad with hno | ⟨fields, ws, rfl, hws, hwp⟩
    · refine ⟨.attributeError, ?_⟩
      cases v <;> simp_all [sendMission, pyGet, JValue.isObj]
    · rcases buildWaypointList_error ws hwp with ⟨e, he⟩
      have hne : ws.isEmpty = false := by
        rcases hwp with ⟨w, hw, -⟩
        cases ws with
        | nil => simp at hw
        | cons a t => rfl
      refine ⟨e, ?_⟩
      rw [sendMission_obj_arr fields ws hws]
      simp [hne, he]
  rcases hsm with ⟨e, he⟩
  have htb : tryBodyEvents jl srv i data = [.logReceivedMission i, .logParseError i] := by
    simp [tryBodyEvents, hdec, he]
  have htr := handleConn_trace_ok jl srv i conn data hrecv
  have hcr : (handleConn jl srv i conn).2 = false := by rw [htr]
  refine ⟨⟨e, he⟩, ?_, ?_, hcr, runLoop_cons_ok jl srv i conn rest hcr⟩
  · rw [htr]; simp [htb]
  · rw [htr]
    simp [List.filter_append, htb, Event.isDispatch, recvLoop_filter_dispatch]

theorem C9_extraction_error_caught_witness :
    (∃ e, sendMission (.arr []) = .error e) ∧
      Event.logParseError 0 ∈ (handleConn decodeToArr acceptingServer 0 simpleConn).1 ∧
      ((handleConn decodeToArr acceptingServer 0 simpleConn).1.filter Event.isDispatch) = [] ∧
      (handleConn decodeToArr acceptingServer 0 simpleConn).2 = false ∧
      runLoop decodeToArr acceptingServer 0 (simpleConn :: [[.chunk []]])
        = ((handleConn decodeToArr acceptingServer 0 simpleConn).1
            ++ (runLoop decodeToArr acceptingServer 1 [[.chunk []]]).1,
           (runLoop decodeToArr acceptingServer 1 [[.chunk []]]).2) :=
  C9_extraction_error_caught decodeToArr acceptingServer 0 simpleConn [1] (.arr [])
    [[.chunk []]] rfl rfl (Or.inl rfl)

/-- C7: the worker loop never has two connections in flight: for two
connections handled back to back, the full trace splits into the first
connection's events followed by the second's — no event (in particular no
read) of the second connection occurs until the first connection's handling
(including its dispatch events) has ended with its socket's close. -/
theorem C7_one_connection_at_a_time (jl : List Nat → Except PyError JValue)
    (srv : ActionServer) (c1 c2 : List RecvResult) :
    ∃ t1 t2, (runLoop jl srv 0 [c1, c2]).1 = t1 ++ t2 ∧
      (∀ e ∈ t1, e.conn = 0) ∧ (∀ e ∈ t2, e.conn = 1) ∧
      (t2 ≠ [] → t1.getLast? = some (.close 0)) := by
  cases hcr : (handleConn jl srv 0 c1).2 with
  | true =>
      refine ⟨(handleConn jl srv 0 c1).1, [], ?_, handleConn_conn jl srv 0 c1, ?_, ?_⟩
      · rw [runLoop_cons_crash jl srv 0 c1 [c2] hcr]; simp
      · simp
      · intro h; exact absurd rfl h
  | false =>
      refine ⟨(handleConn jl srv 0 c1).1, (runLoop jl srv 1 [c2]).1, ?_,
        handleConn_conn jl srv 0 c1, ?_, ?_⟩
      · rw [runLoop_cons_ok jl srv 0 c1 [c2] hcr]
      · intro e he
        cases hcr2 : (handleConn jl srv 1 c2).2 with
        | true =>
            rw [runLoop_cons_crash jl srv 1 c2 [] hcr2] at he
            exact handleConn_conn jl srv 1 c2 e he
        | false =>
            rw [runLoop_cons_ok jl srv 1 c2 [] hcr2] at he
            simp only [runLoop, List.append_nil] at he
            exact handleConn_conn jl srv 1 c2 e he
      · intro h; exact handleConn_last jl srv 0 c1

/-- C6 counterexample: a connection whose second `recv` raises a socket
error.  The translator is never invoked with the accumulated byte `123`
(no decode/parse event at all), and the worker loop terminates with the
propagating exception: the following connection is never accepted.  This
contradicts the claim that a read error passes the accumulated bytes to
the translator and that no per-connection error terminates the loop. -/
theorem C6_counterexample :
    runLoop decodeToEmptyObj acceptingServer 0 [resetConn, [.chunk []]]
        = ([.accept 0, .recvChunk 0 [123], .recvErr 0, .close 0], true) ∧
      Event.accept 1 ∉ [Event.accept 0, .recvChunk 0 [123], .recvErr 0, .close 0] ∧
      Event.logParseError 0 ∉ [Event.accept 0, .recvChunk 0 [123], .recvErr 0, .close 0] ∧
      Event.logReceivedMission 0 ∉ [Event.accept 0, .recvChunk 0 [123], .recvErr 0, .close 0] := by
  refine ⟨rfl, ?_, ?_, ?_⟩ <;> simp

/-- C6 amended: an end-of-stream (graceful close, empty read) hands the
accumulated bytes to the guarded decode-and-send body, and decode or
dispatch-time Python exceptions are caught per connection, so the loop
accepts the remaining connections; but a socket error raised by `recv`
during accumulation is outside the `try`: the connection is closed and the
uncaught exception terminates the worker loop. -/
theorem C6_read_error_terminates_loop (jl : List Nat → Except PyError JValue)
    (srv : ActionServer) (i : Nat) (conn : List RecvResult) (rest : List (List RecvResult))
    (hok : RecvResult.err ∉ conn) :
    (∃ data, (recvLoop i conn []).2 = .ok data ∧
      handleConn jl srv i conn
        = (.accept i :: (recvLoop i conn []).1 ++ tryBodyEvents jl srv i data ++ [.close i],
           false) ∧
      runLoop jl srv i (conn :: rest)
        = ((handleConn jl srv i conn).1 ++ (runLoop jl srv (i + 1) rest).1,
           (runLoop jl srv (i + 1) rest).2)) ∧
    ∀ conn2 : List RecvResult, (recvLoop i conn2 []).2 = .error .readError →
      (handleConn jl srv i conn2).2 = true ∧
      runLoop jl srv i (conn2 :: rest) = ((handleConn jl srv i conn2).1, true) := by
  constructor
  · rcases recvLoop_no_err i conn [] hok with ⟨data, hd, -⟩
    have htr := handleConn_trace_ok jl srv i conn data hd
    have hcr : (handleConn jl srv i conn).2 = false := by rw [htr]
    exact ⟨data, hd, htr, runLoop_cons_ok jl srv i conn rest hcr⟩
  · intro conn2 h2
    have htr := handleConn_trace_err jl srv i conn2 .readError h2
    have hcr : (handleConn jl srv i conn2).2 = true := by rw [htr]
    exact ⟨hcr, runLoop_cons_crash jl srv i conn2 rest hcr⟩

theorem C6_read_error_terminates_loop_witness :
    (∃ data, (recvLoop 0 simpleConn []).2 = .ok data ∧
      handleConn decodeToEmptyObj acceptingServer 0 simpleConn
        = (.accept 0 :: (recvLoop 0 simpleConn []).1
            ++ tryBodyEvents decodeToEmptyObj acceptingServer 0 data ++ [.close 0],
           false) ∧
      runLoop decodeToEmptyObj acceptingServer 0 (simpleConn :: [])
        = ((handleConn decodeToEmptyObj acceptingServer 0 simpleConn).1
            ++ (runLoop decodeToEmptyObj acceptingServer 1 []).1,
           (runLoop decodeToEmptyObj acceptingServer 1 []).2)) ∧
    ∀ conn2 : List RecvResult, (recvLoop 0 conn2 []).2 = .error .readError →
      (handleConn decodeToEmptyObj acceptingServer 0 conn2).2 = true ∧
      runLoop decodeToEmptyObj acceptingServer 0 (conn2 :: [])
        = ((handleConn decodeToEmptyObj acceptingServer 0 conn2).1, true) :=
  C6_read_error_terminates_loop decodeToEmptyObj acceptingServer 0 simpleConn []
    (by simp [simpleConn])

/-- C8: the primary bridge accumulates bytes until end-of-stream, so it
reads past a newline; the diagnostic variant stops accumulating as soon as
the data received so far contains a newline.  For a stream whose first
chunk contains a newline and which carries further data, the primary's
buffer is the whole stream while the diagnostic's payload comes from the
first chunk only — the two variants hand different payloads to the JSON
decoder. -/
theorem C8_framing_payloads_differ (c0 c1 : List Nat) (rest : List (List Nat))
    (h0 : c0 ≠ []) (h1 : c1 ≠ []) (hrest : ∀ c ∈ rest, c ≠ [])
    (hnl : c0.contains 10 = true) :
    (recvLoop 0 ((c0 :: c1 :: rest).map RecvResult.chunk) []).2
        = .ok (c0 ++ c1 ++ rest.flatten) ∧
      diagRecvLoop (c0 :: c1 :: rest) [] = c0 ∧
      diagPayload (c0 :: c1 :: rest) ≠ c0 ++ c1 ++ rest.flatten := by
  have hall : ∀ c ∈ c0 :: c1 :: rest, c ≠ [] := by
    intro c hc
    rcases List.mem_cons.mp hc with rfl | hc2
    · exact h0
    rcases List.mem_cons.mp hc2 with rfl | hc3
    · exact h1
    · exact hrest c hc3
  have hrl := recvLoop_all_chunks 0 (c0 :: c1 :: rest) [] hall
  have hdiag := diagRecvLoop_first_newline c0 (c1 :: rest) h0 hnl
  refine ⟨by simpa [List.append_assoc] using hrl, hdiag, ?_⟩
  intro heq
  have hlen : (diagPayload (c0 :: c1 :: rest)).length = (c0 ++ c1 ++ rest.flatten).length :=
    congrArg List.length heq
  have hle : (diagPayload (c0 :: c1 :: rest)).length ≤ c0.length := by
    unfold diagPayload
    rw [hdiag]
    exact pyStrip_length_le c0
  have hc1 : 0 < c1.length := List.length_pos.mpr h1
  rw [List.length_append, List.length_append] at hlen
  omega

theorem C8_framing_payloads_differ_witness :
    (recvLoop 0 ([[123, 125, 10], [50]].map RecvResult.chunk) []).2
        = .ok ([123, 125, 10] ++ [50] ++ List.flatten []) ∧
      diagRecvLoop [[123, 125, 10], [50]] [] = [123, 125, 10] ∧
      diagPayload [[123, 125, 10], [50]] ≠ [123, 125, 10] ++ [50] ++ List.flatten [] :=
  C8_framing_payloads_differ [123, 125, 10] [50] [] (by simp) (by simp) (by simp) (by decide)

/-- C2, behavior at a concrete dispatched mission: `send_mission` spins
only until the `send_goal_async` future completes — which happens at goal
*acceptance* — and logs that future's value, the `ClientGoalHandle`; it
never issues a get-result request, so no event awaits the goal's terminal
completion and the final result payload (here `7`) is never logged: the
logged value is the acceptance handle, not the final result. -/
theorem C2_logs_handle_not_final_result :
    handleConn decodeToMission acceptingServer 0 simpleConn
        = ([.accept 0, .recvChunk 0 [1], .recvEof 0, .logReceivedMission 0, .logSendingGoal 0,
            .waitForServer 0, .sendGoalAsync 0 goalWire, .spinUntilSendGoalFutureComplete 0,
            .logResult 0 (.goalHandle true), .close 0], false) ∧
      Event.logResult 0 (.goalHandle acceptingServer.accepted)
          ∈ (handleConn decodeToMission acceptingServer 0 simpleConn).1 ∧
      (∀ r : Int, Event.logResult 0 (.finalResultPayload r)
          ∉ (handleConn decodeToMission acceptingServer 0 simpleConn).1) ∧
      LoggedValue.goalHandle acceptingServer.accepted
          ≠ .finalResultPayload acceptingServer.finalResult := by
  have htr : handleConn decodeToMission acceptingServer 0 simpleConn
      = ([.accept 0, .recvChunk 0 [1], .recvEof 0, .logReceivedMission 0, .logSendingGoal 0,
          .waitForServer 0, .sendGoalAsync 0 goalWire, .spinUntilSendGoalFutureComplete 0,
          .logResult 0 (.goalHandle true), .close 0], false) := rfl
  refine ⟨htr, ?_, ?_, ?_⟩
  · rw [show ActionServer.accepted acceptingServer = true from rfl, htr]
    simp
  · intro r; simp [htr]
  · simp [acceptingServer]
